import Mathlib

/-!
Empar: the driver `run` and the non-identifiability detector.

A shallow embedding of `src/Empar.cpp`.  The file holds two functions:

* `nonident_warning(Tree &T)`, the structural non-identifiability detector;
* `run(tree_filename, fasta_filename, model_name)`, the orchestration of one estimation.

Everything else (`tree.h`, `model.h`, `em.h`, `fisher.h`, ...) is a collaborator that is
only called from here.  Collaborators are parameters of the embedding: the helper
`valence(T, i)` is a field of `Tree`, the others are the fields of `Env`.

The observable behaviour of both functions is a sequence of effects (insertions into
`std::cout`, calls of collaborators, operations on the two `std::fstream` objects), so the
embedding returns, beside the C++ return value, the sequence of effects in program order.
In a statement `std::cout << a << f(x) << b` the operands are taken left to right: `a` is
inserted, `f` is called, its value is inserted, then `b`.
-/

namespace Empar

/-! ## Data model -/

/-- The part of `Tree` (declared in `tree.h`) that `Empar.cpp` reads: the three `long`
fields `nnodes`, `nleaves`, `nalpha`, and the degree of a node.  The helper
`valence(T, i)` of `tree.h` is not part of `Empar.cpp`; it is taken as a parameter, the
field `valence`. -/
structure Tree where
  nnodes : Int
  nleaves : Int
  nalpha : Int
  valence : Int → Int

/-- A C++ `double`, as the 64-bit pattern that represents it.  `Empar.cpp` never computes
with the doubles it handles (it stores, passes and prints them), so nothing below depends
on how a pattern is read as a number. -/
structure Double where
  bits : Nat
  deriving DecidableEq

/-- One item inserted into an output stream with `<<`. -/
inductive Out where
  | text (s : String)
  | num (n : Int)
  | dbl (d : Double)
  | endl
  deriving DecidableEq

/-! ## `nonident_warning` -/

/-- The body of the loop `for(long i = 0; i < T.nnodes; i++)` at index `i`: two
independent `if` statements, each of which may `push_back(i)`. -/
def scan_step (T : Tree) (Lnon : List Int) (i : Nat) : List Int :=
  let Lnon := if T.valence i = 2 then Lnon ++ [(i : Int)] else Lnon
  let Lnon := if T.valence i = 1 ∧ (i : Int) = T.nleaves then Lnon ++ [(i : Int)] else Lnon
  Lnon

/-- The list `Lnon` after the scanning loop of `nonident_warning`. -/
def scan (T : Tree) : List Int :=
  (List.range T.nnodes.toNat).foldl (scan_step T) []

/-- The printing loop over `Lnon`: every element, followed by `", "` unless the iterator
is at the last position. -/
def print_Lnon : List Int → List Out
  | [] => []
  | [x] => [Out.num x]
  | x :: y :: rest => Out.num x :: Out.text ", " :: print_Lnon (y :: rest)

/-- The function `nonident_warning(T)`: what it inserts into `std::cout`, and its return
value `Lnon.size() > 0`. -/
def nonident_warning (T : Tree) : List Out × Bool :=
  let Lnon := scan T
  let out : List Out :=
    if Lnon.length > 0 then
      [Out.text "WARNING: The following nodes lead to non-identifiability of the parameters: "]
        ++ print_Lnon Lnon
        ++ [Out.text ".", Out.endl, Out.endl]
        ++ [Out.text "This may happen for two reasons:", Out.endl]
        ++ [Out.text " 1) The root has valence 1. If the model has non-uniform distribution, the length of the outgoing edge cannot be recovered reliably.", Out.endl]
        ++ [Out.text " 2) There is a node (typically thought of as the root) with exactly two incident edges. In this case only the sum of lengths of the two incident edges can be recovered reliably.", Out.endl, Out.endl]
    else []
  (out, decide (Lnon.length > 0))

/-- The node indices (the `long` values) among the items of an output. -/
def emitted : List Out → List Int
  | [] => []
  | Out.num n :: rest => n :: emitted rest
  | _ :: rest => emitted rest

/-- The condition under which the loop body lists node `i`. -/
def offending (T : Tree) (i : Int) : Prop :=
  T.valence i = 2 ∨ (T.valence i = 1 ∧ i = T.nleaves)

instance (T : Tree) (i : Int) : Decidable (offending T i) := by
  unfold offending; infer_instance

/-! ## The collaborators of `run` -/

/-- Modelled from the spec: the type `Model`, declared in `model.h`, which is not part
of `Empar.cpp`.  A model is "identified by name", and `run` reads the field `name`;
`uniform_root` tells whether the root distribution of the model family is uniform (the
spec speaks of a model "with a non-uniform root distribution").  Nothing in `Empar.cpp`
reads this property. -/
structure Model where
  name : String
  uniform_root : Bool
  deriving DecidableEq

/-- The part of `Counts` (declared in `alignment.h`) that `run` reads: the fields `nalpha`
and `nspecies`; the table of pattern counts itself is `table`, of a type `K` that `run`
never inspects. -/
structure Counts (K : Type) where
  nalpha : Int
  nspecies : Int
  table : K

/-- The two `std::fstream` objects of `run`: `fcov` (covariance file) and `st`
(parameters file). -/
inductive Stream where
  | fcov
  | st
  deriving DecidableEq

/-- The collaborators as `run` uses them.  `P` is the type `Parameters`.  A collaborator
that updates one of its reference arguments returns the new value of that argument
(`read_counts(T, data, f)` returns the new `data`, `EMalgorithm(T, Mod, Par, data, eps)`
the new `Par`, and so on); its other arguments are left as they are, and it returns
normally.  Whatever a collaborator draws from the global random generator or from the
file system is part of the environment.
* `dbl q` is the `double` that the compiler makes of the decimal literal `q`;
* `default_counts` is the default-constructed `Counts data;`
* `elapsed` is the value of `((double)(end_time - start_time)) / CLOCKS_PER_SEC`;
* `opens path` tells whether `open(path, std::ios::out)` succeeds. -/
structure Env (P K : Type) where
  dbl : ℚ → Double
  strip_extension : String → String
  create_model : String → Model
  read_tree : String → Tree
  default_counts : Counts K
  create_parameters : Tree → P
  random_parameters_length : Tree → Model → P → P
  random_fake_counts : Tree → Int → Counts K → P → Counts K
  branch_lengths : P → List Double → List Double
  read_counts : Tree → Counts K → String → Counts K
  add_pseudocounts : Double → Counts K → Counts K
  EMalgorithm : Tree → Model → P → Counts K → Double → P
  guess_permutation : Tree → Model → P → P
  full_MLE_observed_covariance_matrix :
    Tree → Model → P → Counts K → List (List Double) → List (List Double)
  log_likelihood : Tree → P → Counts K → Double
  parameters_distance : P → P → Double
  KL_divergence : Tree → P → P → Double
  elapsed : Double
  opens : String → Bool

/-- A call of a collaborator (or of `nonident_warning`), with the values of its
arguments at the time of the call. -/
inductive Call (P K : Type) where
  | random_initialize
  | strip_extension (s : String)
  | create_model (model_name : String)
  | read_tree (tree_filename : String)
  | print_tree (T : Tree)
  | nonident_warning (T : Tree)
  | create_parameters (T : Tree)
  | random_parameters_length (T : Tree) (Mod : Model) (Par : P)
  | random_fake_counts (T : Tree) (N : Int) (data : Counts K) (Par : P)
  | branch_lengths (Par : P) (br : List Double)
  | print_vector (v : List Double)
  | read_counts (T : Tree) (data : Counts K) (fasta_filename : String)
  | add_pseudocounts (c : Double) (data : Counts K)
  | clock
  | EMalgorithm (T : Tree) (Mod : Model) (Par : P) (data : Counts K) (eps : Double)
  | guess_permutation (T : Tree) (Mod : Model) (Par : P)
  | full_MLE_observed_covariance_matrix
      (T : Tree) (Mod : Model) (Par : P) (data : Counts K) (Cov : List (List Double))
  | log_likelihood (T : Tree) (Par : P) (data : Counts K)
  | print_newick_tree (T : Tree) (br : List Double)
  | parameters_distance (Par Parsim : P)
  | KL_divergence (T : Tree) (Par Parsim : P)
  | print_parameters (Par : P) (f : Stream)

/-- One effect of `run`. -/
inductive Event (P K : Type) where
  | cout (o : Out)
  | call (c : Call P K)
  | precision (f : Stream) (n : Nat)
  | setf_fixed (f : Stream)
  | fopen (f : Stream) (path : String) (ok : Bool)
  | finsert (f : Stream) (o : Out)
  | fclose (f : Stream)

/-- How `run` ends: it returns, it throws `std::invalid_argument`, or it reads `Cov`
out of range, which C++ leaves undefined. -/
inductive Result where
  | returned
  | invalid_argument (what : String)
  | undefined
  deriving DecidableEq

/-- The effects of an execution, in program order, and how it ends. -/
structure Outcome (P K : Type) where
  trace : List (Event P K)
  result : Result

/-! ## `run` -/

section Run

variable {P K : Type}

/-- The effects of a statement `std::cout << a << b << ...`. -/
def cout (items : List Out) : List (Event P K) :=
  items.map Event.cout

/-- The effects of a statement `f << a << b << ...` on a file stream. -/
def finsert (f : Stream) (items : List Out) : List (Event P K) :=
  items.map (Event.finsert f)

/-- The read `Cov[i][j]`; `none` when an index is out of range. -/
def read_entry (Cov : List (List Double)) (i j : Nat) : Option Double :=
  match Cov[i]? with
  | none => none
  | some row => row[j]?

/-- The loop `for(i = 0; i < Cov.size(); i++) variances[i] = Cov[i][i];` over the indices
still to visit, from the current `variances`. -/
def variances_loop (Cov : List (List Double)) : List Nat → List Double → Option (List Double)
  | [], variances => some variances
  | i :: rest, variances =>
    match read_entry Cov i i with
    | none => none
    | some x => variances_loop Cov rest (variances.set i x)

/-- The vector `variances` after `variances.resize(Cov.size())` (from the empty vector:
`Cov.size()` zeros) and the loop over the diagonal. -/
def compute_variances (zero : Double) (Cov : List (List Double)) : Option (List Double) :=
  variances_loop Cov (List.range Cov.length) (List.replicate Cov.length zero)

/-- The inner loop `for(j...) fcov << Cov[i][j] << " ";` over the indices still to visit. -/
def write_row (Cov : List (List Double)) (i : Nat) : List Nat → Option (List Out)
  | [] => some []
  | j :: rest =>
    match read_entry Cov i j, write_row Cov i rest with
    | some x, some items => some (Out.dbl x :: Out.text " " :: items)
    | _, _ => none

/-- The outer loop `for(i...) { ...; fcov << std::endl; }` over the indices still to
visit. -/
def write_rows (Cov : List (List Double)) : List Nat → Option (List Out)
  | [] => some []
  | i :: rest =>
    match write_row Cov i (List.range Cov.length), write_rows Cov rest with
    | some row, some items => some (row ++ [Out.endl] ++ items)
    | _, _ => none

variable (env : Env P K) (tree_filename fasta_filename model_name : String)

/-- The variable `simulate`. -/
def run_simulate : Bool := decide (fasta_filename = ":test")

/-- The variable `parameters_filename`. -/
def run_parameters_filename : String := env.strip_extension fasta_filename ++ ".dat"

/-- The variable `covariances_filename`. -/
def run_covariances_filename : String := env.strip_extension fasta_filename ++ ".cov"

/-- The variable `Mod`. -/
def run_Mod : Model := env.create_model model_name

/-- The variable `T`. -/
def run_T : Tree := env.read_tree tree_filename

/-- The variable `nonident`. -/
def run_nonident : Bool := (nonident_warning (run_T env tree_filename)).2

/-- The variable `Parsim` from line 118 on. -/
def run_Parsim : P :=
  let T := run_T env tree_filename
  let Parsim := env.create_parameters T
  if run_simulate fasta_filename then
    env.random_parameters_length T (run_Mod env model_name) Parsim
  else Parsim

/-- The variable `data` at the check of line 139. -/
def run_data : Counts K :=
  let T := run_T env tree_filename
  if run_simulate fasta_filename then
    env.random_fake_counts T 1000 env.default_counts
      (run_Parsim env tree_filename fasta_filename model_name)
  else
    env.add_pseudocounts (env.dbl 0.01) (env.read_counts T env.default_counts fasta_filename)

/-- The condition of line 139. -/
def run_mismatch : Bool :=
  let T := run_T env tree_filename
  let data := run_data env tree_filename fasta_filename model_name
  decide (T.nalpha ≠ data.nalpha ∨ T.nleaves ≠ data.nspecies)

/-- The variable `eps`. -/
def run_eps : Double := env.dbl 1e-8

/-- The variable `Par` after `EMalgorithm`. -/
def run_Par_EM : P :=
  let T := run_T env tree_filename
  env.EMalgorithm T (run_Mod env model_name) (env.create_parameters T)
    (run_data env tree_filename fasta_filename model_name) (run_eps env)

/-- The variable `Par` after `guess_permutation`. -/
def run_Par : P :=
  env.guess_permutation (run_T env tree_filename) (run_Mod env model_name)
    (run_Par_EM env tree_filename fasta_filename model_name)

/-- The variable `br`. -/
def run_br : List Double :=
  env.branch_lengths (run_Par env tree_filename fasta_filename model_name) []

/-- The variable `Cov` after `full_MLE_observed_covariance_matrix`. -/
def run_Cov : List (List Double) :=
  env.full_MLE_observed_covariance_matrix (run_T env tree_filename) (run_Mod env model_name)
    (run_Par env tree_filename fasta_filename model_name)
    (run_data env tree_filename fasta_filename model_name) []

/-- The variable `variances` after line 168. -/
def run_variances : Option (List Double) :=
  compute_variances (env.dbl 0) (run_Cov env tree_filename fasta_filename model_name)

/-- Lines 89 to 109: set-up, tree, detector. -/
def setup_events : List (Event P K) :=
  let T := run_T env tree_filename
  [Event.call Call.random_initialize,
   Event.call (Call.strip_extension fasta_filename),
   Event.call (Call.strip_extension fasta_filename),
   Event.call (Call.create_model model_name)]
  ++ cout [Out.text "Model: ", Out.text (run_Mod env model_name).name, Out.endl]
  ++ [Event.call (Call.read_tree tree_filename)]
  ++ cout [Out.text "Tree:", Out.endl]
  ++ [Event.call (Call.print_tree T),
      Event.call (Call.nonident_warning T)]
  ++ cout (nonident_warning T).1
  ++ [Event.call (Call.create_parameters T)]

/-- Lines 111 to 136: the counts, simulated or read. -/
def data_events : List (Event P K) :=
  let T := run_T env tree_filename
  let Parsim := run_Parsim env tree_filename fasta_filename model_name
  if run_simulate fasta_filename then
    cout [Out.text "WARNING: Using simulated data ", Out.endl, Out.endl]
    ++ [Event.call (Call.random_parameters_length T (run_Mod env model_name)
          (env.create_parameters T)),
        Event.call (Call.random_fake_counts T 1000 env.default_counts Parsim),
        Event.call (Call.branch_lengths Parsim [])]
    ++ cout [Out.text "Simulated branch lengths:", Out.endl]
    ++ [Event.call (Call.print_vector (env.branch_lengths Parsim []))]
  else
    cout [Out.text "Reading fasta file:", Out.endl]
    ++ [Event.call (Call.read_counts T env.default_counts fasta_filename),
        Event.call (Call.add_pseudocounts (env.dbl 0.01)
          (env.read_counts T env.default_counts fasta_filename))]
    ++ cout [Out.endl]

/-- Lines 143 to 158: the EM algorithm and the choice of the permutation. -/
def em_events : List (Event P K) :=
  let T := run_T env tree_filename
  let Mod := run_Mod env model_name
  let data := run_data env tree_filename fasta_filename model_name
  [Event.call (Call.create_parameters T),
   Event.call Call.clock]
  ++ cout [Out.text "Starting the EM algorithm", Out.endl]
  ++ [Event.call (Call.EMalgorithm T Mod (env.create_parameters T) data (run_eps env)),
      Event.call (Call.guess_permutation T Mod
        (run_Par_EM env tree_filename fasta_filename model_name)),
      Event.call Call.clock,
      Event.call (Call.branch_lengths
        (run_Par env tree_filename fasta_filename model_name) [])]

/-- Lines 162 to 185, the block under `if (!nonident)`: the effects, and whether the
block runs to its end (`false`: a read of `Cov` is out of range; the effects are then
those before the loop with that read). -/
def cov_events : List (Event P K) × Bool :=
  let Cov := run_Cov env tree_filename fasta_filename model_name
  let path := run_covariances_filename env fasta_filename
  let call : List (Event P K) :=
    [Event.call (Call.full_MLE_observed_covariance_matrix (run_T env tree_filename)
      (run_Mod env model_name) (run_Par env tree_filename fasta_filename model_name)
      (run_data env tree_filename fasta_filename model_name) [])]
  let opening : List (Event P K) :=
    [Event.precision Stream.fcov 15,
     Event.fopen Stream.fcov path (env.opens path)]
    ++ (if env.opens path then []
        else cout [Out.text "Could not open file: covariances.dat", Out.endl])
  match run_variances env tree_filename fasta_filename model_name with
  | none => (call, false)
  | some _ =>
    match write_rows Cov (List.range Cov.length) with
    | none => (call ++ opening, false)
    | some items =>
      (call ++ opening ++ finsert Stream.fcov items ++ finsert Stream.fcov [Out.endl]
        ++ [Event.fclose Stream.fcov], true)

/-- Lines 187 to 201: the report on `std::cout`. -/
def report_events : List (Event P K) :=
  let T := run_T env tree_filename
  let Par := run_Par env tree_filename fasta_filename model_name
  let data := run_data env tree_filename fasta_filename model_name
  let br := run_br env tree_filename fasta_filename model_name
  cout [Out.endl]
  ++ cout [Out.text "Finished.", Out.endl]
  ++ cout [Out.text "Elapsed time: ", Out.dbl env.elapsed, Out.text " s", Out.endl]
  ++ cout [Out.endl]
  ++ cout [Out.text "Likelihood: "] ++ [Event.call (Call.log_likelihood T Par data)]
  ++ cout [Out.dbl (env.log_likelihood T Par data), Out.endl, Out.endl]
  ++ cout [Out.text "Branch lengths: ", Out.endl]
  ++ [Event.call (Call.print_vector br)]
  ++ (if run_nonident env tree_filename then []
      else
        match run_variances env tree_filename fasta_filename model_name with
        | none => []
        | some variances =>
          cout [Out.text "Parameter variances: ", Out.endl]
          ++ [Event.call (Call.print_vector variances)])
  ++ cout [Out.text "Newick Tree:", Out.endl]
  ++ [Event.call (Call.print_newick_tree T br)]

/-- Lines 204 to 208: the comparison with the simulated parameters. -/
def distance_events : List (Event P K) :=
  let T := run_T env tree_filename
  let Par := run_Par env tree_filename fasta_filename model_name
  let Parsim := run_Parsim env tree_filename fasta_filename model_name
  if run_simulate fasta_filename then
    cout [Out.text "L2 distance:   "] ++ [Event.call (Call.parameters_distance Par Parsim)]
    ++ cout [Out.dbl (env.parameters_distance Par Parsim), Out.endl]
    ++ cout [Out.text "KL divergence: "] ++ [Event.call (Call.KL_divergence T Par Parsim)]
    ++ cout [Out.dbl (env.KL_divergence T Par Parsim), Out.endl]
    ++ cout [Out.endl]
  else []

/-- Lines 211 to 217: the parameters file. -/
def store_events : List (Event P K) :=
  let path := run_parameters_filename env fasta_filename
  if run_simulate fasta_filename then []
  else
    [Event.precision Stream.st 15,
     Event.setf_fixed Stream.st,
     Event.fopen Stream.st path (env.opens path),
     Event.call (Call.print_parameters
       (run_Par env tree_filename fasta_filename model_name) Stream.st)]

/-- The function `run(tree_filename, fasta_filename, model_name)`. -/
def run : Outcome P K :=
  let start := setup_events env tree_filename fasta_filename model_name
    ++ data_events env tree_filename fasta_filename model_name
  if run_mismatch env tree_filename fasta_filename model_name then
    ⟨start, Result.invalid_argument
      "The order of the sequences or their number and the phylogenetic tree do not match."⟩
  else
    let em := em_events env tree_filename fasta_filename model_name
    let rest := report_events env tree_filename fasta_filename model_name
      ++ distance_events env tree_filename fasta_filename model_name
      ++ store_events env tree_filename fasta_filename model_name
    if run_nonident env tree_filename then
      ⟨start ++ em ++ rest, Result.returned⟩
    else
      let cov := cov_events env tree_filename fasta_filename model_name
      if cov.2 then ⟨start ++ em ++ cov.1 ++ rest, Result.returned⟩
      else ⟨start ++ em ++ cov.1, Result.undefined⟩

end Run

/-! ## Reading a trace -/

section Trace

variable {P K : Type}

/-- The call made by an effect, if it is a call. -/
def Event.call? : Event P K → Option (Call P K)
  | Event.call c => some c
  | _ => none

/-- The item inserted into `std::cout` by an effect, if it is one. -/
def Event.cout? : Event P K → Option Out
  | Event.cout o => some o
  | _ => none

/-- The calls of a trace, in order. -/
def calls (trace : List (Event P K)) : List (Call P K) :=
  trace.filterMap Event.call?

/-- What a trace inserts into `std::cout` by `<<`, in order. -/
def stdout (trace : List (Event P K)) : List Out :=
  trace.filterMap Event.cout?

/-- Whether an effect is an operation on the file stream `f`: a setting, `open`, an
insertion, `close`, or the call `print_parameters(Par, f)`. -/
def Event.on_stream (f : Stream) : Event P K → Bool
  | Event.precision g _ => decide (g = f)
  | Event.setf_fixed g => decide (g = f)
  | Event.fopen g _ _ => decide (g = f)
  | Event.finsert g _ => decide (g = f)
  | Event.fclose g => decide (g = f)
  | Event.call (Call.print_parameters _ g) => decide (g = f)
  | _ => false

/-- The operations of a trace on the file stream `f`, in order. -/
def file_events (f : Stream) (trace : List (Event P K)) : List (Event P K) :=
  trace.filter (Event.on_stream f)

/-- The four stages of `run`: detector, EM algorithm, permutation search, covariance
engine. -/
def Call.is_stage : Call P K → Bool
  | Call.nonident_warning _ => true
  | Call.EMalgorithm _ _ _ _ _ => true
  | Call.guess_permutation _ _ _ => true
  | Call.full_MLE_observed_covariance_matrix _ _ _ _ _ => true
  | _ => false

/-- The calls of the four stages in a trace, in order. -/
def stages (trace : List (Event P K)) : List (Call P K) :=
  (calls trace).filter Call.is_stage

/-- The calls that produce or consume the counts: the two readers' calls, the generator
and the EM algorithm. -/
def Call.is_counts_flow : Call P K → Bool
  | Call.read_counts _ _ _ => true
  | Call.add_pseudocounts _ _ => true
  | Call.random_fake_counts _ _ _ _ => true
  | Call.EMalgorithm _ _ _ _ _ => true
  | _ => false

/-- The calls on the way of the counts in a trace, in order. -/
def counts_flow (trace : List (Event P K)) : List (Call P K) :=
  (calls trace).filter Call.is_counts_flow

/-- The argument of a call of `print_vector`. -/
def Call.print_vector? : Call P K → Option (List Double)
  | Call.print_vector v => some v
  | _ => none

/-- The vectors printed with `print_vector` in a trace, in order. -/
def printed_vectors (trace : List (Event P K)) : List (List Double) :=
  (calls trace).filterMap Call.print_vector?

/-- A matrix is square: every row is as long as the matrix has rows. -/
def square (Cov : List (List Double)) : Prop :=
  ∀ row ∈ Cov, row.length = Cov.length

end Trace

/-! ## Concrete inputs -/

/-- The path `1 - 2 - 0` with one leaf (node 0), the root 1 of valence 1, and node 2 of
valence 2. -/
def path_tree : Tree :=
  { nnodes := 3, nleaves := 1, nalpha := 4, valence := fun i => if i = 2 then 2 else 1 }

/-- The star with three leaves 0, 1, 2 around the root 3. -/
def star_tree : Tree :=
  { nnodes := 4, nleaves := 3, nalpha := 4, valence := fun i => if i = 3 then 3 else 1 }

/-- Two leaves 0 and 1 and the root 2, all three joined to the inner node 3: the root has
valence 1 and no node has valence 2. -/
def stalk_tree : Tree :=
  { nnodes := 4, nleaves := 2, nalpha := 4, valence := fun i => if i = 3 then 3 else 1 }

/-- Every file can be opened. -/
def all_open : String → Bool := fun _ => true

/-- No file can be opened. -/
def none_open : String → Bool := fun _ => false

/-- A small environment: the tree file holds `T`, the model has a uniform root
distribution or not, the counts (read or simulated) are over `T.nalpha` symbols and
`nspecies` species, the covariance engine returns `Cov`, and `strip_extension` finds no
extension to strip. -/
def demo_env (T : Tree) (uniform : Bool) (nspecies : Int) (Cov : List (List Double))
    (opens : String → Bool) : Env Unit Unit :=
  { dbl := fun _ => ⟨0⟩
    strip_extension := fun s => s
    create_model := fun name => ⟨name, uniform⟩
    read_tree := fun _ => T
    default_counts := ⟨0, 0, ()⟩
    create_parameters := fun _ => ()
    random_parameters_length := fun _ _ _ => ()
    random_fake_counts := fun T _ _ _ => ⟨T.nalpha, nspecies, ()⟩
    branch_lengths := fun _ _ => [⟨1⟩, ⟨2⟩, ⟨3⟩]
    read_counts := fun T _ _ => ⟨T.nalpha, nspecies, ()⟩
    add_pseudocounts := fun _ data => data
    EMalgorithm := fun _ _ _ _ _ => ()
    guess_permutation := fun _ _ _ => ()
    full_MLE_observed_covariance_matrix := fun _ _ _ _ _ => Cov
    log_likelihood := fun _ _ _ => ⟨4⟩
    parameters_distance := fun _ _ => ⟨5⟩
    KL_divergence := fun _ _ _ => ⟨6⟩
    elapsed := ⟨0⟩
    opens := opens }

/-- The environment `env`, except that the parameters file of `fasta_filename` cannot be
opened. -/
def fail_parameters_file {P K : Type} (env : Env P K) (fasta_filename : String) : Env P K :=
  { env with
    opens := fun path =>
      if path = run_parameters_filename env fasta_filename then false else env.opens path }

/-! ## Lemmas on the detector -/

theorem scan_step_eq (T : Tree) (L : List Int) (i : Nat) :
    scan_step T L i = L ++ (if offending T i then [(i : Int)] else []) := by
  unfold scan_step offending
  dsimp only
  by_cases h2 : T.valence i = 2
  · have h1 : ¬ (T.valence i = 1 ∧ (i : Int) = T.nleaves) := by omega
    rw [if_pos h2, if_neg h1, if_pos (Or.inl h2)]
  · by_cases h1 : T.valence i = 1 ∧ (i : Int) = T.nleaves
    · rw [if_neg h2, if_pos h1, if_pos (Or.inr h1)]
    · have h3 : ¬ (T.valence i = 2 ∨ (T.valence i = 1 ∧ (i : Int) = T.nleaves)) := by
        rintro (h | h)
        · exact h2 h
        · exact h1 h
      rw [if_neg h2, if_neg h1, if_neg h3, List.append_nil]

theorem foldl_scan_step (T : Tree) (l : List Nat) (L : List Int) :
    l.foldl (scan_step T) L
      = L ++ (l.filter (fun (i : Nat) => decide (offending T (i : Int)))).map (fun (i : Nat) => (i : Int)) := by
  induction l generalizing L with
  | nil => simp
  | cons a l ih =>
    rw [List.foldl_cons, ih, scan_step_eq]
    by_cases h : offending T a
    · simp [h, List.filter_cons]
    · simp [h, List.filter_cons]

theorem scan_eq (T : Tree) :
    scan T = ((List.range T.nnodes.toNat).filter
      (fun (i : Nat) => decide (offending T (i : Int)))).map (fun (i : Nat) => (i : Int)) := by
  unfold scan
  rw [foldl_scan_step]
  simp

theorem emitted_print_Lnon (L : List Int) :
    emitted (print_Lnon L) = L := by
  induction L with
  | nil => rfl
  | cons x rest ih =>
    cases rest with
    | nil => rfl
    | cons y r =>
      simp only [print_Lnon, emitted]
      rw [ih]

theorem emitted_append (a b : List Out) :
    emitted (a ++ b) = emitted a ++ emitted b := by
  induction a with
  | nil => rfl
  | cons x a ih =>
    cases x <;> simp [emitted, ih]

theorem emitted_nonident_warning (T : Tree) :
    emitted (nonident_warning T).1 = scan T := by
  unfold nonident_warning
  by_cases h : (scan T).length > 0
  · simp [h, emitted_append, emitted_print_Lnon, emitted]
  · have h0 : scan T = [] := by
      cases hs : scan T with
      | nil => rfl
      | cons a l => rw [hs] at h; simp at h
    simp [h0, emitted]

theorem mem_scan (T : Tree) (i : Int) :
    i ∈ scan T ↔ (0 ≤ i ∧ i < T.nnodes ∧ offending T i) := by
  rw [scan_eq]
  simp only [List.mem_map, List.mem_filter, List.mem_range, decide_eq_true_eq]
  constructor
  · rintro ⟨n, ⟨hn, ho⟩, rfl⟩
    refine ⟨by omega, by omega, ho⟩
  · rintro ⟨h0, h1, ho⟩
    refine ⟨i.toNat, ⟨by omega, ?_⟩, by omega⟩
    have : ((i.toNat : Nat) : Int) = i := by omega
    rw [this]; exact ho

theorem nonident_warning_snd (T : Tree) :
    (nonident_warning T).2 = true ↔ scan T ≠ [] := by
  unfold nonident_warning
  cases hs : scan T with
  | nil => simp
  | cons a l => simp

theorem nonident_warning_of_scan_nil (T : Tree) (h : scan T = []) :
    nonident_warning T = ([], false) := by
  unfold nonident_warning
  simp [h]

theorem scan_pairwise (T : Tree) : (scan T).Pairwise (fun a b => a < b) := by
  rw [scan_eq]
  have h : (List.range T.nnodes.toNat).Pairwise (fun a b => a < b) := List.pairwise_lt_range _
  have hf : ((List.range T.nnodes.toNat).filter
      (fun (i : Nat) => decide (offending T (i : Int)))).Pairwise (fun a b => a < b) :=
    h.sublist (List.filter_sublist _)
  exact (List.pairwise_map).mpr (hf.imp (fun hab => by omega))

/-! ## The claims on `nonident_warning` -/

/-- C1: `nonident_warning(T)` returns true if (a) some node `i` with
`0 <= i < T.nnodes` has valence exactly 2, or (b) the root of `T`, the node of index
`T.nleaves`, has valence exactly 1; and in each case the index of the offending node is
among the indices printed in the diagnostic.  The root is a node of the tree, so its
index lies in `0 .. T.nnodes - 1`. -/
theorem C1_nonident_warning_reports (T : Tree) :
    (∀ i : Int, 0 ≤ i → i < T.nnodes → T.valence i = 2 →
      (nonident_warning T).2 = true ∧ i ∈ emitted (nonident_warning T).1) ∧
    (0 ≤ T.nleaves → T.nleaves < T.nnodes → T.valence T.nleaves = 1 →
      (nonident_warning T).2 = true ∧ T.nleaves ∈ emitted (nonident_warning T).1) := by
  have key : ∀ i : Int, 0 ≤ i → i < T.nnodes → offending T i →
      (nonident_warning T).2 = true ∧ i ∈ emitted (nonident_warning T).1 := by
    intro i h0 h1 ho
    have hm : i ∈ scan T := (mem_scan T i).mpr ⟨h0, h1, ho⟩
    refine ⟨(nonident_warning_snd T).mpr (List.ne_nil_of_mem hm), ?_⟩
    rw [emitted_nonident_warning]
    exact hm
  refine ⟨fun i h0 h1 hv => key i h0 h1 (Or.inl hv), fun h0 h1 hv => ?_⟩
  exact key T.nleaves h0 h1 (Or.inr ⟨hv, rfl⟩)

/-- C1 at `path_tree`: node 2 (valence 2) and the root 1 (valence 1) are both reported. -/
theorem C1_nonident_warning_reports_witness :
    ((nonident_warning path_tree).2 = true ∧ 2 ∈ emitted (nonident_warning path_tree).1) ∧
    ((nonident_warning path_tree).2 = true ∧ 1 ∈ emitted (nonident_warning path_tree).1) :=
  ⟨(C1_nonident_warning_reports path_tree).1 2 (by decide) (by decide) (by decide),
   (C1_nonident_warning_reports path_tree).2 (by decide) (by decide) (by decide)⟩

/-- C2: on a tree in which no node has valence exactly 2 and the root (the node of index
`T.nleaves`, when `T.nleaves` is the index of a node) does not have valence exactly 1,
`nonident_warning(T)` returns false and prints nothing at all: no index, no warning
text. -/
theorem C2_nonident_warning_silent (T : Tree)
    (h2 : ∀ i : Int, 0 ≤ i → i < T.nnodes → T.valence i ≠ 2)
    (h1 : 0 ≤ T.nleaves → T.nleaves < T.nnodes → T.valence T.nleaves ≠ 1) :
    nonident_warning T = ([], false) := by
  apply nonident_warning_of_scan_nil
  apply List.eq_nil_iff_forall_not_mem.mpr
  intro i hi
  obtain ⟨h0, hn, ho⟩ := (mem_scan T i).mp hi
  rcases ho with hv | ⟨hv, hr⟩
  · exact h2 i h0 hn hv
  · rw [hr] at hv h0 hn; exact h1 h0 hn hv

/-- C2 at `star_tree`. -/
theorem C2_nonident_warning_silent_witness :
    nonident_warning star_tree = ([], false) :=
  C2_nonident_warning_silent star_tree
    (by
      intro i h0 h1
      have h4 : i < 4 := h1
      interval_cases i <;> decide)
    (by intro _ _; decide)

/-- C10: the indices that `nonident_warning(T)` prints are exactly the `i` in
`0 .. T.nnodes - 1` with `valence(T,i) = 2`, or `valence(T,i) = 1` and `i = T.nleaves`;
they come in strictly increasing order (so none is listed twice); a node of valence 1
whose index is not `T.nleaves` is never listed; and the return value is true exactly
when the printed list is not empty. -/
theorem C10_nonident_warning_list (T : Tree) :
    (∀ i : Int, i ∈ emitted (nonident_warning T).1 ↔
      (0 ≤ i ∧ i < T.nnodes ∧
        (T.valence i = 2 ∨ (T.valence i = 1 ∧ i = T.nleaves)))) ∧
    (emitted (nonident_warning T).1).Pairwise (fun a b => a < b) ∧
    (∀ i : Int, T.valence i = 1 → i ≠ T.nleaves → i ∉ emitted (nonident_warning T).1) ∧
    ((nonident_warning T).2 = true ↔ emitted (nonident_warning T).1 ≠ []) := by
  rw [emitted_nonident_warning]
  refine ⟨fun i => mem_scan T i, scan_pairwise T, ?_, nonident_warning_snd T⟩
  intro i hv hne hi
  obtain ⟨_, _, ho⟩ := (mem_scan T i).mp hi
  rcases ho with h | ⟨_, h⟩
  · omega
  · exact hne h

/-! ## Lemmas on traces -/

section TraceLemmas

variable {P K : Type}

@[simp] theorem calls_nil : calls ([] : List (Event P K)) = [] := rfl

@[simp] theorem calls_append (a b : List (Event P K)) : calls (a ++ b) = calls a ++ calls b := by
  simp [calls]

@[simp] theorem calls_cons_call (c : Call P K) (a : List (Event P K)) :
    calls (Event.call c :: a) = c :: calls a := by
  simp [calls, Event.call?]

@[simp] theorem calls_cons_precision (f : Stream) (n : Nat) (a : List (Event P K)) :
    calls (Event.precision f n :: a) = calls a := by
  simp [calls, Event.call?]

@[simp] theorem calls_cons_setf_fixed (f : Stream) (a : List (Event P K)) :
    calls (Event.setf_fixed f :: a) = calls a := by
  simp [calls, Event.call?]

@[simp] theorem calls_cons_fopen (f : Stream) (p : String) (ok : Bool) (a : List (Event P K)) :
    calls (Event.fopen f p ok :: a) = calls a := by
  simp [calls, Event.call?]

@[simp] theorem calls_cons_fclose (f : Stream) (a : List (Event P K)) :
    calls (Event.fclose f :: a) = calls a := by
  simp [calls, Event.call?]

@[simp] theorem calls_cout (l : List Out) : calls (cout l : List (Event P K)) = [] := by
  induction l with
  | nil => rfl
  | cons x l ih =>
    simp only [cout, List.map_cons, calls, List.filterMap_cons, Event.call?] at ih ⊢
    exact ih

@[simp] theorem calls_finsert (f : Stream) (l : List Out) :
    calls (finsert f l : List (Event P K)) = [] := by
  induction l with
  | nil => rfl
  | cons x l ih =>
    simp only [finsert, List.map_cons, calls, List.filterMap_cons, Event.call?] at ih ⊢
    exact ih

@[simp] theorem stdout_nil : stdout ([] : List (Event P K)) = [] := rfl

@[simp] theorem stdout_append (a b : List (Event P K)) :
    stdout (a ++ b) = stdout a ++ stdout b := by
  simp [stdout]

@[simp] theorem stdout_cons_call (c : Call P K) (a : List (Event P K)) :
    stdout (Event.call c :: a) = stdout a := by
  simp [stdout, Event.cout?]

@[simp] theorem stdout_cons_precision (f : Stream) (n : Nat) (a : List (Event P K)) :
    stdout (Event.precision f n :: a) = stdout a := by
  simp [stdout, Event.cout?]

@[simp] theorem stdout_cons_setf_fixed (f : Stream) (a : List (Event P K)) :
    stdout (Event.setf_fixed f :: a) = stdout a := by
  simp [stdout, Event.cout?]

@[simp] theorem stdout_cons_fopen (f : Stream) (p : String) (ok : Bool)
    (a : List (Event P K)) : stdout (Event.fopen f p ok :: a) = stdout a := by
  simp [stdout, Event.cout?]

@[simp] theorem stdout_cons_fclose (f : Stream) (a : List (Event P K)) :
    stdout (Event.fclose f :: a) = stdout a := by
  simp [stdout, Event.cout?]

@[simp] theorem stdout_cout (l : List Out) : stdout (cout l : List (Event P K)) = l := by
  induction l with
  | nil => rfl
  | cons x l ih =>
    simp only [cout, List.map_cons, stdout, List.filterMap_cons, Event.cout?] at ih ⊢
    rw [ih]

@[simp] theorem stdout_finsert (f : Stream) (l : List Out) :
    stdout (finsert f l : List (Event P K)) = [] := by
  induction l with
  | nil => rfl
  | cons x l ih =>
    simp only [finsert, List.map_cons, stdout, List.filterMap_cons, Event.cout?] at ih ⊢
    exact ih

@[simp] theorem file_events_nil (f : Stream) : file_events f ([] : List (Event P K)) = [] := rfl

@[simp] theorem file_events_append (f : Stream) (a b : List (Event P K)) :
    file_events f (a ++ b) = file_events f a ++ file_events f b := by
  simp [file_events]

theorem file_events_cons (f : Stream) (e : Event P K) (a : List (Event P K)) :
    file_events f (e :: a)
      = if e.on_stream f then e :: file_events f a else file_events f a := by
  simp only [file_events, List.filter_cons]

@[simp] theorem file_events_cout (f : Stream) (l : List Out) :
    file_events f (cout l : List (Event P K)) = [] := by
  induction l with
  | nil => rfl
  | cons x l ih =>
    simp only [cout, List.map_cons, file_events] at ih ⊢
    rw [List.filter_cons_of_neg (by simp [Event.on_stream])]
    exact ih

@[simp] theorem file_events_finsert_self (f : Stream) (l : List Out) :
    file_events f (finsert f l : List (Event P K)) = finsert f l := by
  induction l with
  | nil => rfl
  | cons x l ih =>
    simp only [finsert, List.map_cons, file_events] at ih ⊢
    rw [List.filter_cons_of_pos (by simp [Event.on_stream]), ih]

theorem file_events_finsert_ne (f g : Stream) (h : g ≠ f) (l : List Out) :
    file_events f (finsert g l : List (Event P K)) = [] := by
  induction l with
  | nil => rfl
  | cons x l ih =>
    simp only [finsert, List.map_cons, file_events] at ih ⊢
    rw [List.filter_cons_of_neg (by simp [Event.on_stream, h])]
    exact ih

end TraceLemmas

/-! ## Lemmas on the loops over `Cov` -/

theorem read_entry_of_square (Cov : List (List Double)) (hsq : square Cov) (i j : Nat)
    (hi : i < Cov.length) (hj : j < Cov.length) :
    ∃ row x, Cov[i]? = some row ∧ row[j]? = some x ∧ read_entry Cov i j = some x := by
  have hrow : Cov[i]? = some Cov[i] := List.getElem?_eq_getElem hi
  have hlen : (Cov[i]).length = Cov.length := hsq _ (List.getElem_mem hi)
  have hj2 : j < (Cov[i]).length := by omega
  have hx : (Cov[i])[j]? = some (Cov[i])[j] := List.getElem?_eq_getElem hj2
  refine ⟨Cov[i], (Cov[i])[j], hrow, hx, ?_⟩
  unfold read_entry
  rw [hrow]
  exact hx

theorem variances_loop_spec (Cov : List (List Double)) (hsq : square Cov) :
    ∀ (idx : List Nat) (v : List Double), (∀ i ∈ idx, i < Cov.length) →
      v.length = Cov.length →
      ∃ w, variances_loop Cov idx v = some w ∧ w.length = Cov.length ∧
        ∀ k, w[k]? = if k ∈ idx then read_entry Cov k k else v[k]? := by
  intro idx
  induction idx with
  | nil =>
    intro v _ hv
    exact ⟨v, rfl, hv, fun k => by simp⟩
  | cons i rest ih =>
    intro v hidx hv
    have hi : i < Cov.length := hidx i (List.mem_cons_self _ _)
    obtain ⟨row, x, _, _, hx⟩ := read_entry_of_square Cov hsq i i hi hi
    obtain ⟨w, hw, hwl, hwk⟩ := ih (v.set i x)
      (fun j hj => hidx j (List.mem_cons_of_mem _ hj)) (by simp [hv])
    refine ⟨w, ?_, hwl, ?_⟩
    · simp only [variances_loop, hx]
      exact hw
    · intro k
      rw [hwk k]
      by_cases hk : k ∈ rest
      · simp [hk]
      · by_cases hki : k = i
        · subst hki
          simp [hk, hx, hv, hi]
        · have hik : i ≠ k := fun h => hki h.symm
          simp [hk, hki, List.getElem?_set_ne hik]

theorem compute_variances_of_square (zero : Double) (Cov : List (List Double))
    (hsq : square Cov) :
    ∃ w, compute_variances zero Cov = some w ∧ w.length = Cov.length ∧
      ∀ i, i < Cov.length →
        ∃ row x, Cov[i]? = some row ∧ row[i]? = some x ∧ w[i]? = some x := by
  obtain ⟨w, hw, hwl, hwk⟩ := variances_loop_spec Cov hsq (List.range Cov.length)
    (List.replicate Cov.length zero) (fun i hi => List.mem_range.mp hi) (by simp)
  refine ⟨w, hw, hwl, fun i hi => ?_⟩
  obtain ⟨row, x, hrow, hx, hr⟩ := read_entry_of_square Cov hsq i i hi hi
  refine ⟨row, x, hrow, hx, ?_⟩
  rw [hwk i, if_pos (List.mem_range.mpr hi), hr]

theorem write_row_of_square (Cov : List (List Double)) (hsq : square Cov) (i : Nat)
    (hi : i < Cov.length) :
    ∀ idx : List Nat, (∀ j ∈ idx, j < Cov.length) → ∃ items, write_row Cov i idx = some items := by
  intro idx
  induction idx with
  | nil => intro _; exact ⟨[], rfl⟩
  | cons j rest ih =>
    intro hidx
    obtain ⟨_, x, _, _, hx⟩ :=
      read_entry_of_square Cov hsq i j hi (hidx j (List.mem_cons_self _ _))
    obtain ⟨items, hitems⟩ := ih (fun k hk => hidx k (List.mem_cons_of_mem _ hk))
    exact ⟨Out.dbl x :: Out.text " " :: items, by simp [write_row, hx, hitems]⟩

theorem write_rows_of_square (Cov : List (List Double)) (hsq : square Cov) :
    ∀ idx : List Nat, (∀ i ∈ idx, i < Cov.length) → ∃ items, write_rows Cov idx = some items := by
  intro idx
  induction idx with
  | nil => intro _; exact ⟨[], rfl⟩
  | cons i rest ih =>
    intro hidx
    obtain ⟨row, hrow⟩ := write_row_of_square Cov hsq i (hidx i (List.mem_cons_self _ _))
      (List.range Cov.length) (fun j hj => List.mem_range.mp hj)
    obtain ⟨items, hitems⟩ := ih (fun k hk => hidx k (List.mem_cons_of_mem _ hk))
    exact ⟨row ++ [Out.endl] ++ items, by simp [write_rows, hrow, hitems]⟩

/-! ## Lemmas on `run` -/

section RunLemmas

variable {P K : Type} (env : Env P K) (tree_filename fasta_filename model_name : String)

theorem stages_append (a b : List (Event P K)) : stages (a ++ b) = stages a ++ stages b := by
  simp [stages]

theorem run_trace_cases :
    (run_mismatch env tree_filename fasta_filename model_name = true ∧
      run env tree_filename fasta_filename model_name
        = ⟨setup_events env tree_filename fasta_filename model_name
            ++ data_events env tree_filename fasta_filename model_name,
           Result.invalid_argument
            "The order of the sequences or their number and the phylogenetic tree do not match."⟩) ∨
    (run_mismatch env tree_filename fasta_filename model_name = false ∧
      run_nonident env tree_filename = true ∧
      run env tree_filename fasta_filename model_name
        = ⟨setup_events env tree_filename fasta_filename model_name
            ++ data_events env tree_filename fasta_filename model_name
            ++ em_events env tree_filename fasta_filename model_name
            ++ (report_events env tree_filename fasta_filename model_name
              ++ distance_events env tree_filename fasta_filename model_name
              ++ store_events env tree_filename fasta_filename model_name),
           Result.returned⟩) ∨
    (run_mismatch env tree_filename fasta_filename model_name = false ∧
      run_nonident env tree_filename = false ∧
      (cov_events env tree_filename fasta_filename model_name).2 = true ∧
      run env tree_filename fasta_filename model_name
        = ⟨setup_events env tree_filename fasta_filename model_name
            ++ data_events env tree_filename fasta_filename model_name
            ++ em_events env tree_filename fasta_filename model_name
            ++ (cov_events env tree_filename fasta_filename model_name).1
            ++ (report_events env tree_filename fasta_filename model_name
              ++ distance_events env tree_filename fasta_filename model_name
              ++ store_events env tree_filename fasta_filename model_name),
           Result.returned⟩) ∨
    (run_mismatch env tree_filename fasta_filename model_name = false ∧
      run_nonident env tree_filename = false ∧
      (cov_events env tree_filename fasta_filename model_name).2 = false ∧
      run env tree_filename fasta_filename model_name
        = ⟨setup_events env tree_filename fasta_filename model_name
            ++ data_events env tree_filename fasta_filename model_name
            ++ em_events env tree_filename fasta_filename model_name
            ++ (cov_events env tree_filename fasta_filename model_name).1,
           Result.undefined⟩) := by
  unfold run
  cases hm : run_mismatch env tree_filename fasta_filename model_name
  · cases hn : run_nonident env tree_filename
    · cases hc : (cov_events env tree_filename fasta_filename model_name).2
      · simp [hc]
      · simp [hc]
    · simp
  · simp

theorem stages_setup_events :
    stages (setup_events env tree_filename fasta_filename model_name)
      = [Call.nonident_warning (run_T env tree_filename)] := by
  simp [setup_events, stages, Call.is_stage]

theorem stages_data_events :
    stages (data_events env tree_filename fasta_filename model_name) = [] := by
  unfold data_events
  split <;> simp [stages, Call.is_stage]

theorem stages_em_events :
    stages (em_events env tree_filename fasta_filename model_name)
      = [Call.EMalgorithm (run_T env tree_filename) (run_Mod env model_name)
          (env.create_parameters (run_T env tree_filename))
          (run_data env tree_filename fasta_filename model_name) (run_eps env),
         Call.guess_permutation (run_T env tree_filename) (run_Mod env model_name)
          (run_Par_EM env tree_filename fasta_filename model_name)] := by
  simp [em_events, stages, Call.is_stage]

theorem stages_cov_events :
    stages (cov_events env tree_filename fasta_filename model_name).1
      = [Call.full_MLE_observed_covariance_matrix (run_T env tree_filename)
          (run_Mod env model_name) (run_Par env tree_filename fasta_filename model_name)
          (run_data env tree_filename fasta_filename model_name) []] := by
  unfold cov_events
  dsimp only
  split
  · simp [stages, Call.is_stage]
  · split <;> split <;> simp [stages, Call.is_stage]

theorem stages_report_events :
    stages (report_events env tree_filename fasta_filename model_name) = [] := by
  unfold report_events
  dsimp only
  split <;> (try split) <;> simp [stages, Call.is_stage]

theorem stages_distance_events :
    stages (distance_events env tree_filename fasta_filename model_name) = [] := by
  unfold distance_events
  dsimp only
  split <;> simp [stages, Call.is_stage]

theorem stages_store_events :
    stages (store_events env tree_filename fasta_filename model_name) = [] := by
  unfold store_events
  dsimp only
  split <;> simp [stages, Call.is_stage]

theorem stages_run :
    stages (run env tree_filename fasta_filename model_name).trace
      = Call.nonident_warning (run_T env tree_filename) ::
        (if run_mismatch env tree_filename fasta_filename model_name then []
         else
          Call.EMalgorithm (run_T env tree_filename) (run_Mod env model_name)
              (env.create_parameters (run_T env tree_filename))
              (run_data env tree_filename fasta_filename model_name) (run_eps env) ::
          Call.guess_permutation (run_T env tree_filename) (run_Mod env model_name)
              (run_Par_EM env tree_filename fasta_filename model_name) ::
          (if run_nonident env tree_filename then []
           else
            [Call.full_MLE_observed_covariance_matrix (run_T env tree_filename)
              (run_Mod env model_name) (run_Par env tree_filename fasta_filename model_name)
              (run_data env tree_filename fasta_filename model_name) []])) := by
  rcases run_trace_cases env tree_filename fasta_filename model_name with
    ⟨hm, h⟩ | ⟨hm, hn, h⟩ | ⟨hm, hn, _, h⟩ | ⟨hm, hn, _, h⟩
  · simp [h, hm, stages_append, stages_setup_events, stages_data_events]
  · simp [h, hm, hn, stages_append, stages_setup_events, stages_data_events, stages_em_events,
      stages_report_events, stages_distance_events, stages_store_events]
  · simp [h, hm, hn, stages_append, stages_setup_events, stages_data_events, stages_em_events,
      stages_cov_events, stages_report_events, stages_distance_events, stages_store_events]
  · simp [h, hm, hn, stages_append, stages_setup_events, stages_data_events, stages_em_events,
      stages_cov_events]

/-! ### Operations on the two file streams -/

theorem file_events_setup_events (f : Stream) :
    file_events f (setup_events env tree_filename fasta_filename model_name) = [] := by
  simp [setup_events, file_events_cons, Event.on_stream]

theorem file_events_data_events (f : Stream) :
    file_events f (data_events env tree_filename fasta_filename model_name) = [] := by
  unfold data_events
  dsimp only
  split <;> simp [file_events_cons, Event.on_stream]

theorem file_events_em_events (f : Stream) :
    file_events f (em_events env tree_filename fasta_filename model_name) = [] := by
  simp [em_events, file_events_cons, Event.on_stream]

theorem file_events_report_events (f : Stream) :
    file_events f (report_events env tree_filename fasta_filename model_name) = [] := by
  unfold report_events
  dsimp only
  split <;> (try split) <;> simp [file_events_cons, Event.on_stream]

theorem file_events_distance_events (f : Stream) :
    file_events f (distance_events env tree_filename fasta_filename model_name) = [] := by
  unfold distance_events
  dsimp only
  split <;> simp [file_events_cons, Event.on_stream]

theorem file_events_fcov_store_events :
    file_events Stream.fcov (store_events env tree_filename fasta_filename model_name) = [] := by
  unfold store_events
  dsimp only
  split <;> simp [file_events_cons, Event.on_stream]

theorem file_events_st_store_events :
    file_events Stream.st (store_events env tree_filename fasta_filename model_name)
      = if run_simulate fasta_filename then []
        else
          [Event.precision Stream.st 15,
           Event.setf_fixed Stream.st,
           Event.fopen Stream.st (run_parameters_filename env fasta_filename)
             (env.opens (run_parameters_filename env fasta_filename)),
           Event.call (Call.print_parameters
             (run_Par env tree_filename fasta_filename model_name) Stream.st)] := by
  unfold store_events
  dsimp only
  split <;> simp [file_events_cons, Event.on_stream]

theorem file_events_st_cov_events :
    file_events Stream.st (cov_events env tree_filename fasta_filename model_name).1 = [] := by
  unfold cov_events
  dsimp only
  split
  · simp [file_events_cons, Event.on_stream]
  · split <;> split <;>
      simp [file_events_finsert_ne Stream.st Stream.fcov (by decide), file_events_cons,
        Event.on_stream]

theorem file_events_fcov_cov_events
    (h : (cov_events env tree_filename fasta_filename model_name).2 = true) :
    ∃ items,
      write_rows (run_Cov env tree_filename fasta_filename model_name)
        (List.range (run_Cov env tree_filename fasta_filename model_name).length)
          = some items ∧
      file_events Stream.fcov (cov_events env tree_filename fasta_filename model_name).1
        = [Event.precision Stream.fcov 15,
           Event.fopen Stream.fcov (run_covariances_filename env fasta_filename)
             (env.opens (run_covariances_filename env fasta_filename))]
          ++ finsert Stream.fcov items ++ finsert Stream.fcov [Out.endl]
          ++ [Event.fclose Stream.fcov] := by
  unfold cov_events at h ⊢
  dsimp only at h ⊢
  split at h
  · simp at h
  · split at h
    · simp at h
    · rename_i items hitems
      refine ⟨items, hitems, ?_⟩
      cases ho : env.opens (run_covariances_filename env fasta_filename) <;>
        simp [hitems, ho, file_events_cons, Event.on_stream]

theorem diagnostic_mem_cov_events
    (h : (cov_events env tree_filename fasta_filename model_name).2 = true)
    (ho : env.opens (run_covariances_filename env fasta_filename) = false) :
    Event.cout (Out.text "Could not open file: covariances.dat")
      ∈ (cov_events env tree_filename fasta_filename model_name).1 := by
  unfold cov_events at h ⊢
  dsimp only at h ⊢
  split at h
  · simp at h
  · split at h
    · simp at h
    · simp [ho, cout]

/-! ### Vectors printed with `print_vector` -/

theorem printed_vectors_append (a b : List (Event P K)) :
    printed_vectors (a ++ b) = printed_vectors a ++ printed_vectors b := by
  simp [printed_vectors]

theorem printed_vectors_setup_events :
    printed_vectors (setup_events env tree_filename fasta_filename model_name) = [] := by
  simp [setup_events, printed_vectors, Call.print_vector?]

theorem printed_vectors_data_events :
    printed_vectors (data_events env tree_filename fasta_filename model_name)
      = if run_simulate fasta_filename then
          [env.branch_lengths (run_Parsim env tree_filename fasta_filename model_name) []]
        else [] := by
  unfold data_events
  dsimp only
  split <;> simp [printed_vectors, Call.print_vector?]

theorem printed_vectors_em_events :
    printed_vectors (em_events env tree_filename fasta_filename model_name) = [] := by
  simp [em_events, printed_vectors, Call.print_vector?]

theorem printed_vectors_cov_events :
    printed_vectors (cov_events env tree_filename fasta_filename model_name).1 = [] := by
  unfold cov_events
  dsimp only
  split
  · simp [printed_vectors, Call.print_vector?]
  · split <;> split <;> simp [printed_vectors, Call.print_vector?]

theorem printed_vectors_report_events :
    printed_vectors (report_events env tree_filename fasta_filename model_name)
      = run_br env tree_filename fasta_filename model_name ::
        (if run_nonident env tree_filename then []
         else
          match run_variances env tree_filename fasta_filename model_name with
          | none => []
          | some variances => [variances]) := by
  unfold report_events
  dsimp only
  split <;> (try split) <;> simp [printed_vectors, Call.print_vector?]

theorem printed_vectors_distance_events :
    printed_vectors (distance_events env tree_filename fasta_filename model_name) = [] := by
  unfold distance_events
  dsimp only
  split <;> simp [printed_vectors, Call.print_vector?]

theorem printed_vectors_store_events :
    printed_vectors (store_events env tree_filename fasta_filename model_name) = [] := by
  unfold store_events
  dsimp only
  split <;> simp [printed_vectors, Call.print_vector?]

/-! ### The way of the counts -/

theorem counts_flow_append (a b : List (Event P K)) :
    counts_flow (a ++ b) = counts_flow a ++ counts_flow b := by
  simp [counts_flow]

theorem counts_flow_setup_events :
    counts_flow (setup_events env tree_filename fasta_filename model_name) = [] := by
  simp [setup_events, counts_flow, Call.is_counts_flow]

theorem counts_flow_data_events :
    counts_flow (data_events env tree_filename fasta_filename model_name)
      = if run_simulate fasta_filename then
          [Call.random_fake_counts (run_T env tree_filename) 1000 env.default_counts
            (run_Parsim env tree_filename fasta_filename model_name)]
        else
          [Call.read_counts (run_T env tree_filename) env.default_counts fasta_filename,
           Call.add_pseudocounts (env.dbl 0.01)
            (env.read_counts (run_T env tree_filename) env.default_counts fasta_filename)] := by
  unfold data_events
  dsimp only
  split <;> simp [counts_flow, Call.is_counts_flow]

theorem counts_flow_em_events :
    counts_flow (em_events env tree_filename fasta_filename model_name)
      = [Call.EMalgorithm (run_T env tree_filename) (run_Mod env model_name)
          (env.create_parameters (run_T env tree_filename))
          (run_data env tree_filename fasta_filename model_name) (run_eps env)] := by
  simp [em_events, counts_flow, Call.is_counts_flow]

theorem counts_flow_cov_events :
    counts_flow (cov_events env tree_filename fasta_filename model_name).1 = [] := by
  unfold cov_events
  dsimp only
  split
  · simp [counts_flow, Call.is_counts_flow]
  · split <;> split <;> simp [counts_flow, Call.is_counts_flow]

theorem counts_flow_report_events :
    counts_flow (report_events env tree_filename fasta_filename model_name) = [] := by
  unfold report_events
  dsimp only
  split <;> (try split) <;> simp [counts_flow, Call.is_counts_flow]

theorem counts_flow_distance_events :
    counts_flow (distance_events env tree_filename fasta_filename model_name) = [] := by
  unfold distance_events
  dsimp only
  split <;> simp [counts_flow, Call.is_counts_flow]

theorem counts_flow_store_events :
    counts_flow (store_events env tree_filename fasta_filename model_name) = [] := by
  unfold store_events
  dsimp only
  split <;> simp [counts_flow, Call.is_counts_flow]

/-! ### What the run prints on `std::cout` -/

theorem stdout_store_events :
    stdout (store_events env tree_filename fasta_filename model_name) = [] := by
  unfold store_events
  dsimp only
  split <;> simp

theorem calls_store_events :
    calls (store_events env tree_filename fasta_filename model_name)
      = if run_simulate fasta_filename then []
        else [Call.print_parameters
          (run_Par env tree_filename fasta_filename model_name) Stream.st] := by
  unfold store_events
  dsimp only
  split <;> simp

theorem stdout_distance_events (h : run_simulate fasta_filename = true) :
    stdout (distance_events env tree_filename fasta_filename model_name)
      = [Out.text "L2 distance:   ",
         Out.dbl (env.parameters_distance (run_Par env tree_filename fasta_filename model_name)
          (run_Parsim env tree_filename fasta_filename model_name)),
         Out.endl,
         Out.text "KL divergence: ",
         Out.dbl (env.KL_divergence (run_T env tree_filename)
          (run_Par env tree_filename fasta_filename model_name)
          (run_Parsim env tree_filename fasta_filename model_name)),
         Out.endl, Out.endl] := by
  unfold distance_events
  simp [h]

theorem mem_emitted (l : List Out) (i : Int) : i ∈ emitted l ↔ Out.num i ∈ l := by
  induction l with
  | nil => simp [emitted]
  | cons x l ih =>
    cases x <;> simp [emitted, ih]

theorem cout_detector_mem_run (o : Out)
    (ho : o ∈ (nonident_warning (run_T env tree_filename)).1) :
    Event.cout o ∈ (run env tree_filename fasta_filename model_name).trace := by
  have hs : Event.cout o ∈ setup_events env tree_filename fasta_filename model_name := by
    have : (Event.cout o : Event P K) ∈ cout (nonident_warning (run_T env tree_filename)).1 :=
      List.mem_map.mpr ⟨o, ho, rfl⟩
    simp [setup_events, this]
  rcases run_trace_cases env tree_filename fasta_filename model_name with
    ⟨_, h⟩ | ⟨_, _, h⟩ | ⟨_, _, _, h⟩ | ⟨_, _, _, h⟩ <;>
  simp [h, hs]

theorem covariances_ne_parameters_filename :
    run_covariances_filename env fasta_filename ≠ run_parameters_filename env fasta_filename := by
  unfold run_covariances_filename run_parameters_filename
  intro h
  have hd := congrArg String.data h
  simp only [String.data_append, List.append_cancel_left_eq] at hd
  exact absurd hd (by decide)

theorem cov_events_fail_parameters_file :
    cov_events (fail_parameters_file env fasta_filename) tree_filename fasta_filename model_name
      = cov_events env tree_filename fasta_filename model_name := by
  have ho : (fail_parameters_file env fasta_filename).opens
      (run_covariances_filename (fail_parameters_file env fasta_filename) fasta_filename)
        = env.opens (run_covariances_filename env fasta_filename) := by
    show (if run_covariances_filename env fasta_filename
        = run_parameters_filename env fasta_filename then false
      else env.opens (run_covariances_filename env fasta_filename)) = _
    rw [if_neg (covariances_ne_parameters_filename env fasta_filename)]
  unfold cov_events
  dsimp only
  rw [ho]
  rfl

end RunLemmas

/-! ## The claims on `run` -/

section RunClaims

variable {P K : Type}

/-- C3, as the code has it: the detector that `run` uses looks at the tree only.  On a
tree with no node of valence 2 whose root (the node of index `T.nleaves`) has valence
exactly 1, it returns true and `run` prints the index of the root, and of no other node,
when the selected model has a non-uniform root distribution and just as well when it
has a uniform one. -/
theorem C3_detector_ignores_model (env : Env P K)
    (tree_filename fasta_filename model_name : String)
    (h2 : ∀ i : Int, 0 ≤ i → i < (run_T env tree_filename).nnodes →
      (run_T env tree_filename).valence i ≠ 2)
    (hr0 : 0 ≤ (run_T env tree_filename).nleaves)
    (hr1 : (run_T env tree_filename).nleaves < (run_T env tree_filename).nnodes)
    (h1 : (run_T env tree_filename).valence (run_T env tree_filename).nleaves = 1) :
    ((run_Mod env model_name).uniform_root = false →
      run_nonident env tree_filename = true ∧
      Event.cout (Out.num (run_T env tree_filename).nleaves)
        ∈ (run env tree_filename fasta_filename model_name).trace ∧
      ∀ i ∈ emitted (nonident_warning (run_T env tree_filename)).1,
        i = (run_T env tree_filename).nleaves) ∧
    ((run_Mod env model_name).uniform_root = true →
      run_nonident env tree_filename = true ∧
      Event.cout (Out.num (run_T env tree_filename).nleaves)
        ∈ (run env tree_filename fasta_filename model_name).trace ∧
      ∀ i ∈ emitted (nonident_warning (run_T env tree_filename)).1,
        i = (run_T env tree_filename).nleaves) := by
  have hroot : (run_T env tree_filename).nleaves ∈ scan (run_T env tree_filename) :=
    (mem_scan _ _).mpr ⟨hr0, hr1, Or.inr ⟨h1, rfl⟩⟩
  have hall : run_nonident env tree_filename = true ∧
      Event.cout (Out.num (run_T env tree_filename).nleaves)
        ∈ (run env tree_filename fasta_filename model_name).trace ∧
      ∀ i ∈ emitted (nonident_warning (run_T env tree_filename)).1,
        i = (run_T env tree_filename).nleaves := by
    refine ⟨(nonident_warning_snd _).mpr (List.ne_nil_of_mem hroot), ?_, ?_⟩
    · apply cout_detector_mem_run
      rw [← mem_emitted, emitted_nonident_warning]
      exact hroot
    · intro i hi
      rw [emitted_nonident_warning] at hi
      obtain ⟨h0, hn, ho⟩ := (mem_scan _ i).mp hi
      rcases ho with hv | ⟨_, hr⟩
      · exact absurd hv (h2 i h0 hn)
      · exact hr
  exact ⟨fun _ => hall, fun _ => hall⟩

/-- C3 at `stalk_tree` with a model whose root distribution is not uniform. -/
theorem C3_detector_ignores_model_witness :
    run_nonident (demo_env stalk_tree false 2 [] all_open) "tree" = true ∧
    Event.cout (Out.num 2)
      ∈ (run (demo_env stalk_tree false 2 [] all_open) "tree" "aln" "ssm").trace ∧
    ∀ i ∈ emitted (nonident_warning stalk_tree).1, i = 2 :=
  (C3_detector_ignores_model (demo_env stalk_tree false 2 [] all_open) "tree" "aln" "ssm"
    (by
      intro i h0 h1
      have h4 : i < 4 := h1
      interval_cases i <;> decide)
    (by decide) (by decide) (by decide)).1 rfl

/-- C3 as stated fails: on `stalk_tree` (no node of valence 2, root 2 of valence 1) with a
model whose root distribution is uniform, the detector used by `run` returns true, not
false, and the root is the index printed as offending. -/
theorem C3_counterexample :
    (run_Mod (demo_env stalk_tree true 2 [] all_open) "jc").uniform_root = true ∧
    (List.range 4).all (fun i =>
      decide ((run_T (demo_env stalk_tree true 2 [] all_open) "tree").valence (i : Int) ≠ 2))
      = true ∧
    (run_T (demo_env stalk_tree true 2 [] all_open) "tree").valence
      (run_T (demo_env stalk_tree true 2 [] all_open) "tree").nleaves = 1 ∧
    run_nonident (demo_env stalk_tree true 2 [] all_open) "tree" = true ∧
    emitted (stdout (run (demo_env stalk_tree true 2 [] all_open) "tree" "aln" "jc").trace)
      = [2] := by
  refine ⟨rfl, by decide, by decide, by decide, by decide⟩

/-- C4: in every execution of `run` the detector is called once, before the EM algorithm
and before the covariance engine: the calls of the four stages are, in this order, the
detector, then (unless the sizes mismatch) `EMalgorithm` and `guess_permutation`, then
(unless the detector returned true) one call of `full_MLE_observed_covariance_matrix`.
When the detector returned true, nothing is done on the covariance stream `fcov` (no
open, no write) and the only vectors printed are the branch lengths, no variances.
When it returned false and the sizes match, the covariance engine is called exactly
once, after `EMalgorithm` and `guess_permutation`. -/
theorem C4_detector_gates_covariance (env : Env P K)
    (tree_filename fasta_filename model_name : String) :
    stages (run env tree_filename fasta_filename model_name).trace
      = Call.nonident_warning (run_T env tree_filename) ::
        (if run_mismatch env tree_filename fasta_filename model_name then []
         else
          Call.EMalgorithm (run_T env tree_filename) (run_Mod env model_name)
              (env.create_parameters (run_T env tree_filename))
              (run_data env tree_filename fasta_filename model_name) (run_eps env) ::
          Call.guess_permutation (run_T env tree_filename) (run_Mod env model_name)
              (run_Par_EM env tree_filename fasta_filename model_name) ::
          (if run_nonident env tree_filename then []
           else
            [Call.full_MLE_observed_covariance_matrix (run_T env tree_filename)
              (run_Mod env model_name) (run_Par env tree_filename fasta_filename model_name)
              (run_data env tree_filename fasta_filename model_name) []])) ∧
    (run_nonident env tree_filename = true →
      file_events Stream.fcov (run env tree_filename fasta_filename model_name).trace = [] ∧
      printed_vectors (run env tree_filename fasta_filename model_name).trace
        = (if run_simulate fasta_filename then
            [env.branch_lengths (run_Parsim env tree_filename fasta_filename model_name) []]
           else [])
          ++ (if run_mismatch env tree_filename fasta_filename model_name then []
              else [run_br env tree_filename fasta_filename model_name])) ∧
    (run_nonident env tree_filename = false →
      run_mismatch env tree_filename fasta_filename model_name = false →
      stages (run env tree_filename fasta_filename model_name).trace
        = [Call.nonident_warning (run_T env tree_filename),
           Call.EMalgorithm (run_T env tree_filename) (run_Mod env model_name)
              (env.create_parameters (run_T env tree_filename))
              (run_data env tree_filename fasta_filename model_name) (run_eps env),
           Call.guess_permutation (run_T env tree_filename) (run_Mod env model_name)
              (run_Par_EM env tree_filename fasta_filename model_name),
           Call.full_MLE_observed_covariance_matrix (run_T env tree_filename)
              (run_Mod env model_name) (run_Par env tree_filename fasta_filename model_name)
              (run_data env tree_filename fasta_filename model_name) []]) := by
  refine ⟨stages_run env tree_filename fasta_filename model_name, ?_, ?_⟩
  · intro hn
    rcases run_trace_cases env tree_filename fasta_filename model_name with
      ⟨hm, h⟩ | ⟨hm, _, h⟩ | ⟨_, hn2, _, _⟩ | ⟨_, hn2, _, _⟩
    · simp [h, hm, file_events_setup_events, file_events_data_events,
        printed_vectors_append, printed_vectors_setup_events, printed_vectors_data_events]
    · simp [h, hm, hn, file_events_setup_events, file_events_data_events,
        file_events_em_events, file_events_report_events, file_events_distance_events,
        file_events_fcov_store_events,
        printed_vectors_append, printed_vectors_setup_events, printed_vectors_data_events,
        printed_vectors_em_events, printed_vectors_report_events,
        printed_vectors_distance_events, printed_vectors_store_events]
    · rw [hn] at hn2; exact absurd hn2 (by decide)
    · rw [hn] at hn2; exact absurd hn2 (by decide)
  · intro hn hm
    rw [stages_run]
    simp [hn, hm]

/-- C4 at two runs on real data: on `path_tree` the detector returns true, on
`star_tree` it returns false. -/
theorem C4_detector_gates_covariance_witness :
    (file_events Stream.fcov
        (run (demo_env path_tree true 1 [] all_open) "tree" "aln" "jc").trace = [] ∧
      printed_vectors (run (demo_env path_tree true 1 [] all_open) "tree" "aln" "jc").trace
        = [[⟨1⟩, ⟨2⟩, ⟨3⟩]]) ∧
    stages (run (demo_env star_tree true 3 [[⟨7⟩]] all_open) "tree" "aln" "jc").trace
      = [Call.nonident_warning star_tree,
         Call.EMalgorithm star_tree ⟨"jc", true⟩ () ⟨4, 3, ()⟩ ⟨0⟩,
         Call.guess_permutation star_tree ⟨"jc", true⟩ (),
         Call.full_MLE_observed_covariance_matrix star_tree ⟨"jc", true⟩ () ⟨4, 3, ()⟩ []] :=
  ⟨(C4_detector_gates_covariance (demo_env path_tree true 1 [] all_open)
      "tree" "aln" "jc").2.1 (by decide),
   (C4_detector_gates_covariance (demo_env star_tree true 3 [[⟨7⟩]] all_open)
      "tree" "aln" "jc").2.2 (by decide) (by decide)⟩

/-- C5: `run` throws `std::invalid_argument` if and only if `T.nalpha != data.nalpha` or
`T.nleaves != data.nspecies`, for the tree `T` read and the counts `data` obtained (read
with the pseudocount added, or simulated).  When it throws, the only stage called so far
is the detector (no `EMalgorithm`, no `guess_permutation`, no covariance engine) and
nothing has been done on either output file stream. -/
theorem C5_input_mismatch (env : Env P K)
    (tree_filename fasta_filename model_name : String) :
    ((∃ what, (run env tree_filename fasta_filename model_name).result
        = Result.invalid_argument what) ↔
      ((run_T env tree_filename).nalpha
          ≠ (run_data env tree_filename fasta_filename model_name).nalpha ∨
        (run_T env tree_filename).nleaves
          ≠ (run_data env tree_filename fasta_filename model_name).nspecies)) ∧
    (∀ what, (run env tree_filename fasta_filename model_name).result
        = Result.invalid_argument what →
      stages (run env tree_filename fasta_filename model_name).trace
        = [Call.nonident_warning (run_T env tree_filename)] ∧
      file_events Stream.fcov (run env tree_filename fasta_filename model_name).trace = [] ∧
      file_events Stream.st (run env tree_filename fasta_filename model_name).trace = []) := by
  have hdec : run_mismatch env tree_filename fasta_filename model_name = true ↔
      ((run_T env tree_filename).nalpha
          ≠ (run_data env tree_filename fasta_filename model_name).nalpha ∨
        (run_T env tree_filename).nleaves
          ≠ (run_data env tree_filename fasta_filename model_name).nspecies) := by
    simp [run_mismatch]
  rcases run_trace_cases env tree_filename fasta_filename model_name with
    ⟨hm, h⟩ | ⟨hm, _, h⟩ | ⟨hm, _, _, h⟩ | ⟨hm, _, _, h⟩
  · refine ⟨⟨fun _ => hdec.mp hm, fun _ => ⟨_, by rw [h]⟩⟩, fun what _ => ?_⟩
    simp [h, stages_append, stages_setup_events, stages_data_events, file_events_setup_events,
      file_events_data_events]
  · have hne : ¬ run_mismatch env tree_filename fasta_filename model_name = true := by simp [hm]
    refine ⟨⟨fun ⟨w, hw⟩ => ?_, fun hx => absurd (hdec.mpr hx) hne⟩, fun what hw => ?_⟩
    · rw [h] at hw; exact absurd hw (by simp)
    · rw [h] at hw; exact absurd hw (by simp)
  · have hne : ¬ run_mismatch env tree_filename fasta_filename model_name = true := by simp [hm]
    refine ⟨⟨fun ⟨w, hw⟩ => ?_, fun hx => absurd (hdec.mpr hx) hne⟩, fun what hw => ?_⟩
    · rw [h] at hw; exact absurd hw (by simp)
    · rw [h] at hw; exact absurd hw (by simp)
  · have hne : ¬ run_mismatch env tree_filename fasta_filename model_name = true := by simp [hm]
    refine ⟨⟨fun ⟨w, hw⟩ => ?_, fun hx => absurd (hdec.mpr hx) hne⟩, fun what hw => ?_⟩
    · rw [h] at hw; exact absurd hw (by simp)
    · rw [h] at hw; exact absurd hw (by simp)

/-- C5 at a run on `star_tree` (3 leaves) with an alignment of 5 species. -/
theorem C5_input_mismatch_witness :
    (run (demo_env star_tree true 5 [] all_open) "tree" "aln" "jc").result
      = Result.invalid_argument
        "The order of the sequences or their number and the phylogenetic tree do not match." ∧
    stages (run (demo_env star_tree true 5 [] all_open) "tree" "aln" "jc").trace
      = [Call.nonident_warning star_tree] ∧
    file_events Stream.fcov
      (run (demo_env star_tree true 5 [] all_open) "tree" "aln" "jc").trace = [] ∧
    file_events Stream.st
      (run (demo_env star_tree true 5 [] all_open) "tree" "aln" "jc").trace = [] :=
  ⟨rfl, (C5_input_mismatch (demo_env star_tree true 5 [] all_open) "tree" "aln" "jc").2
    "The order of the sequences or their number and the phylogenetic tree do not match." rfl⟩

/-- C7 on the parameters file: when the parameters file cannot be opened, `run` prints on
`std::cout` exactly what it prints when the file opens, so no diagnostic for that file,
it makes the same calls with the same arguments, and it ends the same way; in a run on real data that returns, the operations on the
stream `st` are the settings, the failed `open`, and `print_parameters` on the stream
that is not open.  The covariance file is treated otherwise: when it cannot be opened,
a run that reaches it and returns prints the diagnostic `Could not open file: ...`. -/
theorem C7_parameters_file_failure_silent (env : Env P K)
    (tree_filename fasta_filename model_name : String) :
    stdout (run (fail_parameters_file env fasta_filename)
        tree_filename fasta_filename model_name).trace
      = stdout (run env tree_filename fasta_filename model_name).trace ∧
    calls (run (fail_parameters_file env fasta_filename)
        tree_filename fasta_filename model_name).trace
      = calls (run env tree_filename fasta_filename model_name).trace ∧
    (run (fail_parameters_file env fasta_filename)
        tree_filename fasta_filename model_name).result
      = (run env tree_filename fasta_filename model_name).result ∧
    (run_simulate fasta_filename = false →
      (run env tree_filename fasta_filename model_name).result = Result.returned →
      file_events Stream.st (run (fail_parameters_file env fasta_filename)
          tree_filename fasta_filename model_name).trace
        = [Event.precision Stream.st 15,
           Event.setf_fixed Stream.st,
           Event.fopen Stream.st (run_parameters_filename env fasta_filename) false,
           Event.call (Call.print_parameters
             (run_Par env tree_filename fasta_filename model_name) Stream.st)]) ∧
    (run_nonident env tree_filename = false →
      (run env tree_filename fasta_filename model_name).result = Result.returned →
      env.opens (run_covariances_filename env fasta_filename) = false →
      Event.cout (Out.text "Could not open file: covariances.dat")
        ∈ (run env tree_filename fasta_filename model_name).trace) := by
  have main :
      stdout (run (fail_parameters_file env fasta_filename)
          tree_filename fasta_filename model_name).trace
        = stdout (run env tree_filename fasta_filename model_name).trace ∧
      calls (run (fail_parameters_file env fasta_filename)
          tree_filename fasta_filename model_name).trace
        = calls (run env tree_filename fasta_filename model_name).trace ∧
      (run (fail_parameters_file env fasta_filename)
          tree_filename fasta_filename model_name).result
        = (run env tree_filename fasta_filename model_name).result ∧
      (run_simulate fasta_filename = false →
        (run env tree_filename fasta_filename model_name).result = Result.returned →
        file_events Stream.st (run (fail_parameters_file env fasta_filename)
            tree_filename fasta_filename model_name).trace
          = [Event.precision Stream.st 15,
             Event.setf_fixed Stream.st,
             Event.fopen Stream.st (run_parameters_filename env fasta_filename) false,
             Event.call (Call.print_parameters
               (run_Par env tree_filename fasta_filename model_name) Stream.st)]) := by
    have e1 : setup_events (fail_parameters_file env fasta_filename)
        tree_filename fasta_filename model_name
          = setup_events env tree_filename fasta_filename model_name := rfl
    have e2 : data_events (fail_parameters_file env fasta_filename)
        tree_filename fasta_filename model_name
          = data_events env tree_filename fasta_filename model_name := rfl
    have e3 : em_events (fail_parameters_file env fasta_filename)
        tree_filename fasta_filename model_name
          = em_events env tree_filename fasta_filename model_name := rfl
    have e4 : report_events (fail_parameters_file env fasta_filename)
        tree_filename fasta_filename model_name
          = report_events env tree_filename fasta_filename model_name := rfl
    have e5 : distance_events (fail_parameters_file env fasta_filename)
        tree_filename fasta_filename model_name
          = distance_events env tree_filename fasta_filename model_name := rfl
    have e6 : run_mismatch (fail_parameters_file env fasta_filename)
        tree_filename fasta_filename model_name
          = run_mismatch env tree_filename fasta_filename model_name := rfl
    have e7 : run_nonident (fail_parameters_file env fasta_filename) tree_filename
          = run_nonident env tree_filename := rfl
    have e8 := cov_events_fail_parameters_file env tree_filename fasta_filename model_name
    have e9 : (fail_parameters_file env fasta_filename).opens
        (run_parameters_filename env fasta_filename) = false := by
      simp [fail_parameters_file]
    have e10 : file_events Stream.st (store_events (fail_parameters_file env fasta_filename)
        tree_filename fasta_filename model_name)
          = if run_simulate fasta_filename then []
            else
              [Event.precision Stream.st 15,
               Event.setf_fixed Stream.st,
               Event.fopen Stream.st (run_parameters_filename env fasta_filename) false,
               Event.call (Call.print_parameters
                 (run_Par env tree_filename fasta_filename model_name) Stream.st)] := by
      rw [file_events_st_store_events]
      show (if run_simulate fasta_filename = true then []
        else [Event.precision Stream.st 15, Event.setf_fixed Stream.st,
          Event.fopen Stream.st (run_parameters_filename env fasta_filename)
            ((fail_parameters_file env fasta_filename).opens
              (run_parameters_filename env fasta_filename)),
          Event.call (Call.print_parameters
            (run_Par env tree_filename fasta_filename model_name) Stream.st)]) = _
      rw [e9]
    have e11 : calls (store_events (fail_parameters_file env fasta_filename)
        tree_filename fasta_filename model_name)
          = calls (store_events env tree_filename fasta_filename model_name) := by
      rw [calls_store_events, calls_store_events]
      rfl
    rcases run_trace_cases env tree_filename fasta_filename model_name with
      ⟨hm, h⟩ | ⟨hm, hn, h⟩ | ⟨hm, hn, hc, h⟩ | ⟨hm, hn, hc, h⟩
    · have h' : run (fail_parameters_file env fasta_filename)
          tree_filename fasta_filename model_name
            = run env tree_filename fasta_filename model_name := by
        rw [h]; simp [run, e6, hm, e1, e2]
      rw [h']
      refine ⟨rfl, rfl, rfl, fun _ hr => ?_⟩
      rw [h] at hr; exact absurd hr (by simp)
    · have h' : run (fail_parameters_file env fasta_filename)
          tree_filename fasta_filename model_name
            = ⟨setup_events env tree_filename fasta_filename model_name
              ++ data_events env tree_filename fasta_filename model_name
              ++ em_events env tree_filename fasta_filename model_name
              ++ (report_events env tree_filename fasta_filename model_name
                ++ distance_events env tree_filename fasta_filename model_name
                ++ store_events (fail_parameters_file env fasta_filename)
                    tree_filename fasta_filename model_name),
               Result.returned⟩ := by
        simp [run, e6, hm, e7, hn, e1, e2, e3, e4, e5]
      rw [h', h]
      refine ⟨by simp [stdout_store_events], by simp [e11], rfl, fun hs _ => ?_⟩
      simp [file_events_setup_events, file_events_data_events, file_events_em_events,
        file_events_report_events, file_events_distance_events, e10, hs]
    · have h' : run (fail_parameters_file env fasta_filename)
          tree_filename fasta_filename model_name
            = ⟨setup_events env tree_filename fasta_filename model_name
              ++ data_events env tree_filename fasta_filename model_name
              ++ em_events env tree_filename fasta_filename model_name
              ++ (cov_events env tree_filename fasta_filename model_name).1
              ++ (report_events env tree_filename fasta_filename model_name
                ++ distance_events env tree_filename fasta_filename model_name
                ++ store_events (fail_parameters_file env fasta_filename)
                    tree_filename fasta_filename model_name),
               Result.returned⟩ := by
        simp [run, e6, hm, e7, hn, e8, hc, e1, e2, e3, e4, e5]
      rw [h', h]
      refine ⟨by simp [stdout_store_events], by simp [e11], rfl, fun hs _ => ?_⟩
      simp [file_events_setup_events, file_events_data_events, file_events_em_events,
        file_events_st_cov_events,
        file_events_report_events, file_events_distance_events, e10, hs]
    · have h' : run (fail_parameters_file env fasta_filename)
          tree_filename fasta_filename model_name
            = run env tree_filename fasta_filename model_name := by
        rw [h]; simp [run, e6, hm, e7, hn, e8, hc, e1, e2, e3]
      rw [h']
      refine ⟨rfl, rfl, rfl, fun _ hr => ?_⟩
      rw [h] at hr; exact absurd hr (by simp)
  refine ⟨main.1, main.2.1, main.2.2.1, main.2.2.2, fun hn hr ho => ?_⟩
  rcases run_trace_cases env tree_filename fasta_filename model_name with
    ⟨_, h⟩ | ⟨_, hn2, _⟩ | ⟨_, _, hc, h⟩ | ⟨_, _, _, h⟩
  · rw [h] at hr; exact absurd hr (by simp)
  · rw [hn] at hn2; exact absurd hn2 (by decide)
  · have hmem := diagnostic_mem_cov_events env tree_filename fasta_filename model_name hc ho
    simp [h, hmem]
  · rw [h] at hr; exact absurd hr (by simp)

/-- C7 at two runs on real data on `star_tree`: one where the parameters file `aln.dat`
cannot be opened, one where no file can be opened. -/
theorem C7_parameters_file_failure_silent_witness :
    file_events Stream.st
        (run (fail_parameters_file (demo_env star_tree true 3 [[⟨7⟩]] all_open) "aln")
          "tree" "aln" "jc").trace
      = [Event.precision Stream.st 15,
         Event.setf_fixed Stream.st,
         Event.fopen Stream.st "aln.dat" false,
         Event.call (Call.print_parameters () Stream.st)] ∧
    Event.cout (Out.text "Could not open file: covariances.dat")
      ∈ (run (demo_env star_tree true 3 [[⟨7⟩]] none_open) "tree" "aln" "jc").trace :=
  ⟨(C7_parameters_file_failure_silent (demo_env star_tree true 3 [[⟨7⟩]] all_open)
      "tree" "aln" "jc").2.2.2.1 (by decide) (by decide),
   (C7_parameters_file_failure_silent (demo_env star_tree true 3 [[⟨7⟩]] none_open)
      "tree" "aln" "jc").2.2.2.2 (by decide) (by decide) (by decide)⟩

/-- C8: the counts handed to `EMalgorithm` come from one of two sources.  On real data
(`fasta_filename != ":test"`) they are the counts read by `read_counts` with
`add_pseudocounts(0.01, data)` applied once, after the reading and before `EMalgorithm`
(and it is applied also in a run that then fails the size check, so before that check).
On simulated data they are the output of `random_fake_counts` for 1000 observations from
the random parameters, with no pseudocount.  In both cases `EMalgorithm`, when the sizes
match, is called once, on these counts, with `eps = 1e-8`. -/
theorem C8_counts_provenance (env : Env P K)
    (tree_filename fasta_filename model_name : String) :
    (fasta_filename ≠ ":test" →
      run_data env tree_filename fasta_filename model_name
        = env.add_pseudocounts (env.dbl 0.01)
            (env.read_counts (run_T env tree_filename) env.default_counts fasta_filename) ∧
      counts_flow (run env tree_filename fasta_filename model_name).trace
        = [Call.read_counts (run_T env tree_filename) env.default_counts fasta_filename,
           Call.add_pseudocounts (env.dbl 0.01)
            (env.read_counts (run_T env tree_filename) env.default_counts fasta_filename)]
          ++ (if run_mismatch env tree_filename fasta_filename model_name then []
              else
                [Call.EMalgorithm (run_T env tree_filename) (run_Mod env model_name)
                  (env.create_parameters (run_T env tree_filename))
                  (env.add_pseudocounts (env.dbl 0.01)
                    (env.read_counts (run_T env tree_filename) env.default_counts
                      fasta_filename))
                  (env.dbl 1e-8)])) ∧
    (fasta_filename = ":test" →
      run_data env tree_filename fasta_filename model_name
        = env.random_fake_counts (run_T env tree_filename) 1000 env.default_counts
            (env.random_parameters_length (run_T env tree_filename) (run_Mod env model_name)
              (env.create_parameters (run_T env tree_filename))) ∧
      counts_flow (run env tree_filename fasta_filename model_name).trace
        = [Call.random_fake_counts (run_T env tree_filename) 1000 env.default_counts
            (env.random_parameters_length (run_T env tree_filename) (run_Mod env model_name)
              (env.create_parameters (run_T env tree_filename)))]
          ++ (if run_mismatch env tree_filename fasta_filename model_name then []
              else
                [Call.EMalgorithm (run_T env tree_filename) (run_Mod env model_name)
                  (env.create_parameters (run_T env tree_filename))
                  (env.random_fake_counts (run_T env tree_filename) 1000 env.default_counts
                    (env.random_parameters_length (run_T env tree_filename)
                      (run_Mod env model_name)
                      (env.create_parameters (run_T env tree_filename))))
                  (env.dbl 1e-8)])) := by
  have hflow : counts_flow (run env tree_filename fasta_filename model_name).trace
      = counts_flow (data_events env tree_filename fasta_filename model_name)
        ++ (if run_mismatch env tree_filename fasta_filename model_name then []
            else
              [Call.EMalgorithm (run_T env tree_filename) (run_Mod env model_name)
                (env.create_parameters (run_T env tree_filename))
                (run_data env tree_filename fasta_filename model_name) (run_eps env)]) := by
    rcases run_trace_cases env tree_filename fasta_filename model_name with
      ⟨hm, h⟩ | ⟨hm, hn, h⟩ | ⟨hm, hn, hc, h⟩ | ⟨hm, hn, hc, h⟩
    · simp [h, hm, counts_flow_append, counts_flow_setup_events]
    · simp [h, hm, counts_flow_append, counts_flow_setup_events, counts_flow_em_events,
        counts_flow_report_events, counts_flow_distance_events, counts_flow_store_events]
    · simp [h, hm, counts_flow_append, counts_flow_setup_events, counts_flow_em_events,
        counts_flow_cov_events,
        counts_flow_report_events, counts_flow_distance_events, counts_flow_store_events]
    · simp [h, hm, counts_flow_append, counts_flow_setup_events, counts_flow_em_events,
        counts_flow_cov_events]
  constructor
  · intro hf
    have hs : run_simulate fasta_filename = false := by simp [run_simulate, hf]
    have hd : run_data env tree_filename fasta_filename model_name
        = env.add_pseudocounts (env.dbl 0.01)
            (env.read_counts (run_T env tree_filename) env.default_counts fasta_filename) := by
      simp [run_data, hs]
    refine ⟨hd, ?_⟩
    rw [hflow, counts_flow_data_events, hd]
    simp [hs, run_eps]
  · intro hf
    have hs : run_simulate fasta_filename = true := by simp [run_simulate, hf]
    have hp : run_Parsim env tree_filename fasta_filename model_name
        = env.random_parameters_length (run_T env tree_filename) (run_Mod env model_name)
            (env.create_parameters (run_T env tree_filename)) := by
      simp [run_Parsim, hs]
    have hd : run_data env tree_filename fasta_filename model_name
        = env.random_fake_counts (run_T env tree_filename) 1000 env.default_counts
            (env.random_parameters_length (run_T env tree_filename) (run_Mod env model_name)
              (env.create_parameters (run_T env tree_filename))) := by
      simp [run_data, hs, hp]
    refine ⟨hd, ?_⟩
    rw [hflow, counts_flow_data_events, hd, hp]
    simp [hs, run_eps]

/-- C8 at a run on real data and at a run on simulated data, both on `star_tree`. -/
theorem C8_counts_provenance_witness :
    counts_flow (run (demo_env star_tree true 3 [[⟨7⟩]] all_open) "tree" "aln" "jc").trace
      = [Call.read_counts star_tree ⟨0, 0, ()⟩ "aln",
         Call.add_pseudocounts ⟨0⟩ ⟨4, 3, ()⟩,
         Call.EMalgorithm star_tree ⟨"jc", true⟩ () ⟨4, 3, ()⟩ ⟨0⟩] ∧
    counts_flow (run (demo_env star_tree true 3 [[⟨7⟩]] all_open) "tree" ":test" "jc").trace
      = [Call.random_fake_counts star_tree 1000 ⟨0, 0, ()⟩ (),
         Call.EMalgorithm star_tree ⟨"jc", true⟩ () ⟨4, 3, ()⟩ ⟨0⟩] :=
  ⟨((C8_counts_provenance (demo_env star_tree true 3 [[⟨7⟩]] all_open)
      "tree" "aln" "jc").1 (by decide)).2,
   ((C8_counts_provenance (demo_env star_tree true 3 [[⟨7⟩]] all_open)
      "tree" ":test" "jc").2 rfl).2⟩

/-- C9: when `run` computes the covariance matrix `Cov` (sizes match, detector false) and
`Cov` is square, the vector `variances` is its diagonal: it has length `Cov.size()`, and
`variances[i] = Cov[i][i]` for every `i` below `Cov.size()`; and this is the vector that
`run` prints after the branch lengths. -/
theorem C9_variances_are_diagonal (env : Env P K)
    (tree_filename fasta_filename model_name : String)
    (hm : run_mismatch env tree_filename fasta_filename model_name = false)
    (hn : run_nonident env tree_filename = false)
    (hsq : square (run_Cov env tree_filename fasta_filename model_name)) :
    ∃ variances,
      run_variances env tree_filename fasta_filename model_name = some variances ∧
      variances.length = (run_Cov env tree_filename fasta_filename model_name).length ∧
      (∀ i, i < (run_Cov env tree_filename fasta_filename model_name).length →
        ∃ row x, (run_Cov env tree_filename fasta_filename model_name)[i]? = some row ∧
          row[i]? = some x ∧ variances[i]? = some x) ∧
      (run env tree_filename fasta_filename model_name).result = Result.returned ∧
      printed_vectors (run env tree_filename fasta_filename model_name).trace
        = (if run_simulate fasta_filename then
            [env.branch_lengths (run_Parsim env tree_filename fasta_filename model_name) []]
           else [])
          ++ [run_br env tree_filename fasta_filename model_name, variances] := by
  obtain ⟨w, hw, hwl, hwd⟩ := compute_variances_of_square (env.dbl 0)
    (run_Cov env tree_filename fasta_filename model_name) hsq
  have hv : run_variances env tree_filename fasta_filename model_name = some w := hw
  obtain ⟨items, hitems⟩ := write_rows_of_square
    (run_Cov env tree_filename fasta_filename model_name) hsq
    (List.range (run_Cov env tree_filename fasta_filename model_name).length)
    (fun i hi => List.mem_range.mp hi)
  have hc : (cov_events env tree_filename fasta_filename model_name).2 = true := by
    simp [cov_events, hv, hitems]
  refine ⟨w, hv, hwl, hwd, ?_⟩
  rcases run_trace_cases env tree_filename fasta_filename model_name with
    ⟨hm2, _⟩ | ⟨_, hn2, _⟩ | ⟨_, _, _, h⟩ | ⟨_, _, hc2, _⟩
  · rw [hm] at hm2; exact absurd hm2 (by decide)
  · rw [hn] at hn2; exact absurd hn2 (by decide)
  · rw [h]
    refine ⟨rfl, ?_⟩
    simp [printed_vectors_append, printed_vectors_setup_events, printed_vectors_data_events,
      printed_vectors_em_events, printed_vectors_cov_events, printed_vectors_report_events,
      printed_vectors_distance_events, printed_vectors_store_events, hn, hv]
  · rw [hc] at hc2; exact absurd hc2 (by decide)

/-- C9 at a run on `star_tree` whose covariance matrix is `[[7, 8], [9, 10]]`: the
variances printed are `[7, 10]`. -/
theorem C9_variances_are_diagonal_witness :
    ∃ variances,
      run_variances (demo_env star_tree true 3 [[⟨7⟩, ⟨8⟩], [⟨9⟩, ⟨10⟩]] all_open)
        "tree" "aln" "jc" = some variances ∧
      variances.length = 2 ∧
      (∀ i, i < 2 →
        ∃ row x, ([[⟨7⟩, ⟨8⟩], [⟨9⟩, ⟨10⟩]] : List (List Double))[i]? = some row ∧
          row[i]? = some x ∧ variances[i]? = some x) ∧
      (run (demo_env star_tree true 3 [[⟨7⟩, ⟨8⟩], [⟨9⟩, ⟨10⟩]] all_open)
        "tree" "aln" "jc").result = Result.returned ∧
      printed_vectors (run (demo_env star_tree true 3 [[⟨7⟩, ⟨8⟩], [⟨9⟩, ⟨10⟩]] all_open)
        "tree" "aln" "jc").trace = [] ++ [[⟨1⟩, ⟨2⟩, ⟨3⟩], variances] :=
  C9_variances_are_diagonal (demo_env star_tree true 3 [[⟨7⟩, ⟨8⟩], [⟨9⟩, ⟨10⟩]] all_open)
    "tree" "aln" "jc" (by decide) (by decide)
    (by
      intro row hrow
      simp only [run_Cov, demo_env, List.mem_cons, List.mem_singleton, List.not_mem_nil,
        or_false] at hrow
      rcases hrow with h | h <;> rw [h] <;> rfl)

end RunClaims

end Empar
